import Mathlib

/-!
Verification of the AMP viewer-integration highlight handler
(src/extensions/amp-viewer-integration/0.1/highlight-handler.js).

The JavaScript module is embedded shallowly:
JSON values become an inductive type, the handler state and its observable
side effects (messages, style mutations, scroll mutations, DOM child
insertion and removal) become an explicit state record plus an event trace,
and JavaScript numbers are modelled as rationals.  External collaborators
that live outside this repository slice (the query-string extraction, the
JSON parser, the text locator and the viewport service) are passed in as
explicit parameters, following the contracts the specification states for
them.
-/

/-- Model of a JavaScript JSON value, as produced by structured-data
parsing of the highlight parameter. -/
inductive JSValue where
  | jnull
  | jbool (b : Bool)
  | jnum (q : ℚ)
  | jstr (s : String)
  | jarr (elems : List JSValue)
  | jobj (fields : List (String × JSValue))

/-- JavaScript property access on a parsed value, as a fallible read.
Reading a named field of a number, string, boolean or array yields
undefined, modelled as Except.ok none; reading a field of the JSON null
value throws a TypeError, modelled as Except.error; reading a field of an
object looks the name up. -/
def jsGet : JSValue → String → Except Unit (Option JSValue)
  | JSValue.jnull, _ => Except.error ()
  | JSValue.jobj fields, name => Except.ok (fields.lookup name)
  | _, _ => Except.ok none

/-- HIGHLIGHT_PARAM_LENGTH_LIMIT from the source: 100 shifted left by 10,
the 100kB cap on the serialized highlight parameter. -/
def HIGHLIGHT_PARAM_LENGTH_LIMIT : Nat := 100 <<< 10

/-- NUM_SENTENCES_LIMIT from the source: the cap on the number of
sentences to highlight. -/
def NUM_SENTENCES_LIMIT : Nat := 15

/-- NUM_ALL_CHARS_LIMIT from the source: the cap on the cumulative number
of characters over all sentences. -/
def NUM_ALL_CHARS_LIMIT : Nat := 1500

/-- A validated highlight request, HighlightInfoDef in the source: the
ordered list of sentence strings. -/
structure HighlightInfo where
  sentences : List String
deriving DecidableEq

/-- The element-validation loop of getHighlightParam: walks the parsed
array keeping the running character sum; rejects any element that is not a
string or is the empty string, and rejects the whole array as soon as the
running sum passes NUM_ALL_CHARS_LIMIT. -/
def checkSentences : List JSValue → Nat → Option (List String)
  | [], _ => some []
  | sen :: rest, sum =>
    match sen with
    | JSValue.jstr s =>
      if s = "" then none
      else if sum + s.length > NUM_ALL_CHARS_LIMIT then none
      else (checkSentences rest (sum + s.length)).map (fun ss => s :: ss)
    | _ => none

/-- getHighlightParam from the source.  parseQueryString and parseJson are
imported from outside this repository slice, so the function here receives
the extracted value of the highlight key (none when the key is absent; the
source also treats an empty value as absent via its falsiness check) and
receives the JSON parser as a parameter.  Modelled from the spec: parseJson
is any structured-data parser that fails closed, returning none when its
input is not parseable.  The result is Except.ok of the optional request;
the uncaught TypeError thrown by the field read on a parsed JSON null
propagates as Except.error. -/
def getHighlightParam (parseJson : String → Option JSValue)
    (param : Option String) : Except Unit (Option HighlightInfo) :=
  match param with
  | none => Except.ok none
  | some p =>
    if p.length = 0 ∨ p.length > HIGHLIGHT_PARAM_LENGTH_LIMIT then Except.ok none
    else
      match parseJson p with
      | none => Except.ok none
      | some highlight =>
        match jsGet highlight "s" with
        | Except.error e => Except.error e
        | Except.ok (some (JSValue.jarr sens)) =>
          if sens.length > NUM_SENTENCES_LIMIT then Except.ok none
          else Except.ok ((checkSentences sens 0).map HighlightInfo.mk)
        | Except.ok _ => Except.ok none

theorem checkSentences_invalid (x : JSValue)
    (hbad : (∀ s, x ≠ JSValue.jstr s) ∨ x = JSValue.jstr "") :
    ∀ (xs : List JSValue) (sum : Nat), x ∈ xs → checkSentences xs sum = none := by
  intro xs
  induction xs with
  | nil => intro sum h; cases h
  | cons hd tl ih =>
    intro sum hmem
    rcases List.mem_cons.mp hmem with heq | htl
    · subst heq
      rcases hbad with hns | hes
      · cases x with
        | jstr s => exact absurd rfl (hns s)
        | jnull => rfl
        | jbool b => rfl
        | jnum q => rfl
        | jarr es => rfl
        | jobj fs => rfl
      · subst hes
        simp [checkSentences]
    · cases hd with
      | jstr s =>
        by_cases hs : s = ""
        · simp [checkSentences, hs]
        · by_cases hsum : sum + s.length > NUM_ALL_CHARS_LIMIT
          · simp [checkSentences, hs, hsum]
          · simp [checkSentences, hs, hsum, ih _ htl]
      | jnull => rfl
      | jbool b => rfl
      | jnum q => rfl
      | jarr es => rfl
      | jobj fs => rfl

theorem checkSentences_overflow (ss : List String) :
    ∀ sum : Nat, sum ≤ NUM_ALL_CHARS_LIMIT →
      NUM_ALL_CHARS_LIMIT < sum + (ss.map String.length).sum →
      checkSentences (ss.map JSValue.jstr) sum = none := by
  induction ss with
  | nil =>
    intro sum hle hgt
    simp at hgt
    omega
  | cons s tl ih =>
    intro sum hle hgt
    by_cases hs : s = ""
    · simp [checkSentences, hs]
    · by_cases hsum : sum + s.length > NUM_ALL_CHARS_LIMIT
      · simp [checkSentences, hs, hsum]
      · have h1 : sum + s.length ≤ NUM_ALL_CHARS_LIMIT := by omega
        have h2 : NUM_ALL_CHARS_LIMIT < sum + s.length + (tl.map String.length).sum := by
          simp at hgt
          omega
        simp [checkSentences, hs, hsum, ih _ h1 h2]

theorem checkSentences_ok (ss : List String) :
    ∀ sum : Nat, (∀ s ∈ ss, s ≠ "") →
      sum + (ss.map String.length).sum ≤ NUM_ALL_CHARS_LIMIT →
      checkSentences (ss.map JSValue.jstr) sum = some ss := by
  induction ss with
  | nil => intro sum _ _; rfl
  | cons s tl ih =>
    intro sum hne hle
    have hs : s ≠ "" := hne s (List.mem_cons_self s tl)
    have hsum : ¬ sum + s.length > NUM_ALL_CHARS_LIMIT := by
      simp at hle
      omega
    have hrest : sum + s.length + (tl.map String.length).sum ≤ NUM_ALL_CHARS_LIMIT := by
      simp at hle
      omega
    have htl : ∀ t ∈ tl, t ≠ "" := fun t ht => hne t (List.mem_cons_of_mem s ht)
    simp [checkSentences, hs, hsum, ih _ htl hrest]

theorem highlight_length_limit_value : HIGHLIGHT_PARAM_LENGTH_LIMIT = 102400 := by
  decide

theorem num_sentences_limit_value : NUM_SENTENCES_LIMIT = 15 := rfl

theorem num_all_chars_limit_value : NUM_ALL_CHARS_LIMIT = 1500 := rfl

theorem getHighlightParam_none_of_cond (pj : String → Option JSValue) (p : String)
    (hc : p.length = 0 ∨ p.length > HIGHLIGHT_PARAM_LENGTH_LIMIT) :
    getHighlightParam pj (some p) = Except.ok none := by
  simp [getHighlightParam, hc]

theorem getHighlightParam_reduce (pj : String → Option JSValue) (p : String)
    (hc : ¬ (p.length = 0 ∨ p.length > HIGHLIGHT_PARAM_LENGTH_LIMIT))
    (v : JSValue) (hv : pj p = some v) :
    getHighlightParam pj (some p) =
      match jsGet v "s" with
      | Except.error e => Except.error e
      | Except.ok (some (JSValue.jarr sens)) =>
        if sens.length > NUM_SENTENCES_LIMIT then Except.ok none
        else Except.ok ((checkSentences sens 0).map HighlightInfo.mk)
      | Except.ok _ => Except.ok none := by
  simp [getHighlightParam, hc, hv]

theorem getHighlightParam_reduce_arr (pj : String → Option JSValue) (p : String)
    (hc : ¬ (p.length = 0 ∨ p.length > HIGHLIGHT_PARAM_LENGTH_LIMIT))
    (v : JSValue) (hv : pj p = some v) (sens : List JSValue)
    (hg : jsGet v "s" = Except.ok (some (JSValue.jarr sens))) :
    getHighlightParam pj (some p) =
      if sens.length > NUM_SENTENCES_LIMIT then Except.ok none
      else Except.ok ((checkSentences sens 0).map HighlightInfo.mk) := by
  simp [getHighlightParam, hc, hv, hg]

theorem param_length_cond_false (p : String) (h0 : p ≠ "") (h1 : p.length ≤ 102400) :
    ¬ (p.length = 0 ∨ p.length > HIGHLIGHT_PARAM_LENGTH_LIMIT) := by
  rw [highlight_length_limit_value]
  push_neg
  refine ⟨?_, by omega⟩
  intro hz
  apply h0
  apply String.ext
  have hd : p.data.length = 0 := hz
  rw [List.length_eq_zero.mp hd]

theorem getHighlightParam_null_raises (pj : String → Option JSValue) (p : String)
    (hc : ¬ (p.length = 0 ∨ p.length > HIGHLIGHT_PARAM_LENGTH_LIMIT))
    (hv : pj p = some JSValue.jnull) :
    getHighlightParam pj (some p) = Except.error () := by
  rw [getHighlightParam_reduce pj p hc JSValue.jnull hv]
  rfl

/-- Counterexample for claim C1: the hash fragment highlight=null gives a
present, size-bounded parameter that parses to the JSON null value; the
source then evaluates a field read on null, which throws a TypeError, so
getHighlightParam raises instead of returning the claimed absence. -/
theorem getHighlightParam_null_counterexample :
    getHighlightParam (fun _ => some JSValue.jnull) (some "null") =
      Except.error () ∧
    getHighlightParam (fun _ => some JSValue.jnull) (some "null") ≠
      Except.ok none := by
  have h1 : getHighlightParam (fun _ => some JSValue.jnull) (some "null") =
      Except.error () :=
    getHighlightParam_null_raises (fun _ => some JSValue.jnull) "null"
      (param_length_cond_false "null" (by decide) (by decide)) rfl
  exact ⟨h1, by rw [h1]; exact fun h => Except.noConfusion h⟩

/-- Claim C1 (amended): getHighlightParam returns absence whenever the
highlight parameter is absent, its serialized length exceeds 102400
characters (the oversize check alone sufficing regardless of content), its
s field is not an array while the parsed value is not JSON null, the array
has more than 15 entries, any entry is not a string or is the empty
string, or the cumulative character length over all entries exceeds 1500;
when the parsed value is JSON null the field read instead throws a
TypeError that propagates out of the function; otherwise it returns the
request holding exactly those sentences in order. -/
theorem getHighlightParam_validation :
    (∀ pj, getHighlightParam pj none = Except.ok none) ∧
    (∀ pj (p : String), 102400 < p.length →
      getHighlightParam pj (some p) = Except.ok none) ∧
    (∀ pj (p : String) v, pj p = some v → v ≠ JSValue.jnull →
      (∀ xs, jsGet v "s" ≠ Except.ok (some (JSValue.jarr xs))) →
      getHighlightParam pj (some p) = Except.ok none) ∧
    (∀ pj (p : String), p ≠ "" → p.length ≤ 102400 →
      pj p = some JSValue.jnull →
      getHighlightParam pj (some p) = Except.error ()) ∧
    (∀ pj p v xs, pj p = some v →
      jsGet v "s" = Except.ok (some (JSValue.jarr xs)) →
      15 < xs.length → getHighlightParam pj (some p) = Except.ok none) ∧
    (∀ pj p v xs x, pj p = some v →
      jsGet v "s" = Except.ok (some (JSValue.jarr xs)) →
      x ∈ xs → ((∀ s, x ≠ JSValue.jstr s) ∨ x = JSValue.jstr "") →
      getHighlightParam pj (some p) = Except.ok none) ∧
    (∀ pj p v (ss : List String), pj p = some v →
      jsGet v "s" = Except.ok (some (JSValue.jarr (ss.map JSValue.jstr))) →
      1500 < (ss.map String.length).sum →
      getHighlightParam pj (some p) = Except.ok none) ∧
    (∀ pj p v (ss : List String), p ≠ "" → p.length ≤ 102400 → pj p = some v →
      jsGet v "s" = Except.ok (some (JSValue.jarr (ss.map JSValue.jstr))) →
      ss.length ≤ 15 → (∀ s ∈ ss, s ≠ "") →
      (ss.map String.length).sum ≤ 1500 →
      getHighlightParam pj (some p) =
        Except.ok (some (HighlightInfo.mk ss))) := by
  refine ⟨fun pj => rfl, ?_, ?_, ?_, ?_, ?_, ?_, ?_⟩
  · intro pj p h
    refine getHighlightParam_none_of_cond pj p (Or.inr ?_)
    rw [highlight_length_limit_value]
    exact h
  · intro pj p v hv hvnull hns
    by_cases hc : p.length = 0 ∨ p.length > HIGHLIGHT_PARAM_LENGTH_LIMIT
    · exact getHighlightParam_none_of_cond pj p hc
    · rw [getHighlightParam_reduce pj p hc v hv]
      cases v with
      | jnull => exact absurd rfl hvnull
      | jbool b => rfl
      | jnum q => rfl
      | jstr s => rfl
      | jarr es => rfl
      | jobj fields =>
        rcases hl : fields.lookup "s" with _ | w
        · simp [jsGet, hl]
        · cases w with
          | jarr xs => exact absurd (by simp [jsGet, hl]) (hns xs)
          | jnull => simp [jsGet, hl]
          | jbool b => simp [jsGet, hl]
          | jnum q => simp [jsGet, hl]
          | jstr s => simp [jsGet, hl]
          | jobj fs => simp [jsGet, hl]
  · intro pj p hne hsize hv
    exact getHighlightParam_null_raises pj p
      (param_length_cond_false p hne hsize) hv
  · intro pj p v xs hv hg hlen
    by_cases hc : p.length = 0 ∨ p.length > HIGHLIGHT_PARAM_LENGTH_LIMIT
    · exact getHighlightParam_none_of_cond pj p hc
    · rw [getHighlightParam_reduce_arr pj p hc v hv xs hg]
      have hgt : xs.length > NUM_SENTENCES_LIMIT := by
        rw [num_sentences_limit_value]; exact hlen
      rw [if_pos hgt]
  · intro pj p v xs x hv hg hx hbad
    by_cases hc : p.length = 0 ∨ p.length > HIGHLIGHT_PARAM_LENGTH_LIMIT
    · exact getHighlightParam_none_of_cond pj p hc
    · rw [getHighlightParam_reduce_arr pj p hc v hv xs hg]
      by_cases hlen : xs.length > NUM_SENTENCES_LIMIT
      · rw [if_pos hlen]
      · rw [if_neg hlen, checkSentences_invalid x hbad xs 0 hx]
        rfl
  · intro pj p v ss hv hg hsum
    by_cases hc : p.length = 0 ∨ p.length > HIGHLIGHT_PARAM_LENGTH_LIMIT
    · exact getHighlightParam_none_of_cond pj p hc
    · rw [getHighlightParam_reduce_arr pj p hc v hv (ss.map JSValue.jstr) hg]
      by_cases hlen : (ss.map JSValue.jstr).length > NUM_SENTENCES_LIMIT
      · rw [if_pos hlen]
      · have hover : checkSentences (ss.map JSValue.jstr) 0 = none := by
          refine checkSentences_overflow ss 0 (by omega) ?_
          rw [num_all_chars_limit_value]
          omega
        rw [if_neg hlen, hover]
        rfl
  · intro pj p v ss hne hsize hv hg hcount hnonempty hsum
    rw [getHighlightParam_reduce_arr pj p (param_length_cond_false p hne hsize)
      v hv (ss.map JSValue.jstr) hg]
    have hlen : ¬ (ss.map JSValue.jstr).length > NUM_SENTENCES_LIMIT := by
      rw [num_sentences_limit_value, List.length_map]
      omega
    have hok : checkSentences (ss.map JSValue.jstr) 0 = some ss := by
      refine checkSentences_ok ss 0 hnonempty ?_
      rw [num_all_chars_limit_value]
      omega
    rw [if_neg hlen, hok]
    rfl

/-- Witness for the amended claim C1 at concrete inputs: a well-formed
one-sentence parameter parses to exactly that sentence, a parameter whose
array holds a number is rejected, and a parameter parsing to JSON null
raises. -/
theorem getHighlightParam_validation_witness :
    getHighlightParam
      (fun _ => some (JSValue.jobj [("s", JSValue.jarr [JSValue.jstr "Hello world"])]))
      (some "x") = Except.ok (some (HighlightInfo.mk ["Hello world"])) ∧
    getHighlightParam
      (fun _ => some (JSValue.jobj [("s", JSValue.jarr [JSValue.jnum 3])]))
      (some "x") = Except.ok none ∧
    getHighlightParam (fun _ => some JSValue.jnull) (some "z") =
      Except.error () := by
  refine ⟨?_, ?_, ?_⟩
  · exact getHighlightParam_validation.2.2.2.2.2.2.2
      (fun _ => some (JSValue.jobj [("s", JSValue.jarr [JSValue.jstr "Hello world"])]))
      "x" _ ["Hello world"] (by decide) (by decide) rfl rfl (by decide)
      (by decide) (by decide)
  · exact getHighlightParam_validation.2.2.2.2.2.1
      (fun _ => some (JSValue.jobj [("s", JSValue.jarr [JSValue.jnum 3])]))
      "x" _ [JSValue.jnum 3] (JSValue.jnum 3) rfl rfl
      (List.mem_singleton.mpr rfl) (Or.inl (fun s h => by cases h))
  · exact getHighlightParam_validation.2.2.2.1
      (fun _ => some JSValue.jnull) "z" (by decide) (by decide) rfl

/-- Counterexample for claim C5: a present, size-bounded parameter parsing
to the JSON null value is data on which the s field cannot be read, and
there the source throws a TypeError instead of returning the claimed
absence. -/
theorem getHighlightParam_null_read_counterexample :
    (" null".length ≤ 102400 ∧ " null" ≠ "") ∧
    getHighlightParam (fun _ => some JSValue.jnull) (some " null") =
      Except.error () ∧
    getHighlightParam (fun _ => some JSValue.jnull) (some " null") ≠
      Except.ok none := by
  have h1 : getHighlightParam (fun _ => some JSValue.jnull) (some " null") =
      Except.error () :=
    getHighlightParam_null_raises (fun _ => some JSValue.jnull) " null"
      (param_length_cond_false " null" (by decide) (by decide)) rfl
  exact ⟨⟨by decide, by decide⟩, h1, by rw [h1]; exact fun h => Except.noConfusion h⟩

/-- Claim C5 (amended): when the highlight parameter is present and within
the size limit but is not parseable as structured data, getHighlightParam
returns absence (none) rather than raising an error; likewise when it
parses to a value whose s field reads as undefined; but when it parses to
the JSON null value, the field read throws a TypeError which propagates
out of the function instead of yielding absence. -/
theorem getHighlightParam_parse_failure :
    (∀ pj (p : String), p.length ≤ 102400 → pj p = none →
      getHighlightParam pj (some p) = Except.ok none) ∧
    (∀ pj (p : String) v, pj p = some v → jsGet v "s" = Except.ok none →
      getHighlightParam pj (some p) = Except.ok none) ∧
    (∀ pj (p : String), p ≠ "" → p.length ≤ 102400 →
      pj p = some JSValue.jnull →
      getHighlightParam pj (some p) = Except.error ()) := by
  refine ⟨?_, ?_, ?_⟩
  · intro pj p hsize hfail
    by_cases hc : p.length = 0 ∨ p.length > HIGHLIGHT_PARAM_LENGTH_LIMIT
    · exact getHighlightParam_none_of_cond pj p hc
    · simp [getHighlightParam, hc, hfail]
  · intro pj p v hv hg
    by_cases hc : p.length = 0 ∨ p.length > HIGHLIGHT_PARAM_LENGTH_LIMIT
    · exact getHighlightParam_none_of_cond pj p hc
    · rw [getHighlightParam_reduce pj p hc v hv, hg]
  · intro pj p hne hsize hv
    exact getHighlightParam_null_raises pj p
      (param_length_cond_false p hne hsize) hv

/-- Witness for the amended claim C5: a parameter the parser rejects yields
absence, a parameter parsing to a bare number (s reads as undefined)
yields absence, and a parameter parsing to JSON null raises. -/
theorem getHighlightParam_parse_failure_witness :
    getHighlightParam (fun _ => none) (some "nonsense") = Except.ok none ∧
    getHighlightParam (fun _ => some (JSValue.jnum 5)) (some "5") =
      Except.ok none ∧
    getHighlightParam (fun _ => some JSValue.jnull) (some "q") =
      Except.error () := by
  refine ⟨?_, ?_, ?_⟩
  · exact getHighlightParam_parse_failure.1 (fun _ => none) "nonsense" (by decide) rfl
  · exact getHighlightParam_parse_failure.2.1 (fun _ => some (JSValue.jnum 5)) "5"
      (JSValue.jnum 5) rfl rfl
  · exact getHighlightParam_parse_failure.2.2 (fun _ => some JSValue.jnull) "q"
      (by decide) (by decide) rfl

/-- Claim C10: a parameter whose s field is the empty array passes every
validation check, so getHighlightParam returns a request holding zero
sentences rather than absence. -/
theorem getHighlightParam_empty_sentence_list (pj : String → Option JSValue)
    (p : String) (v : JSValue) (h0 : p ≠ "") (h1 : p.length ≤ 102400)
    (h2 : pj p = some v)
    (h3 : jsGet v "s" = Except.ok (some (JSValue.jarr []))) :
    getHighlightParam pj (some p) = Except.ok (some (HighlightInfo.mk [])) := by
  rw [getHighlightParam_reduce_arr pj p (param_length_cond_false p h0 h1) v h2 [] h3]
  rfl

/-- Witness for claim C10 at a concrete parameter with an empty array. -/
theorem getHighlightParam_empty_sentence_list_witness :
    getHighlightParam (fun _ => some (JSValue.jobj [("s", JSValue.jarr [])]))
      (some "e") = Except.ok (some (HighlightInfo.mk [])) :=
  getHighlightParam_empty_sentence_list _ "e" _ (by decide) (by decide) rfl rfl

/-- A layout rectangle as returned by the viewport service: the top and
bottom document coordinates of one highlighted node.  JavaScript numbers
are modelled as rationals. -/
structure Rect where
  top : ℚ
  bottom : ℚ
deriving DecidableEq

/-- The largest finite JavaScript double, Number.MAX_VALUE, used by the
source as the initial accumulator for the minimum top. -/
def jsMaxValue : ℚ := (2 ^ 53 - 1) * 2 ^ 971

/-- calcTopToCenterHighlightedNodes_ from the source, expressed over the
layout rectangles of the stored nodes; none models a null node list.  The
minimum-top accumulator starts at Number.MAX_VALUE and the maximum-bottom
accumulator starts at 0, exactly as in the source loop. -/
def calcTopToCenter (rects : Option (List Rect)) (height paddingTop : ℚ) : ℚ :=
  match rects with
  | none => 0
  | some rs =>
    let minTop := rs.foldl (fun m r => min m r.top) jsMaxValue
    let maxBottom := rs.foldl (fun m r => max m r.bottom) 0
    if minTop ≥ maxBottom then 0
    else
      let usable := height - paddingTop
      if maxBottom - minTop > usable then minTop
      else
        let pos := (maxBottom + minTop - usable) / 2
        if pos > 0 then pos else 0

/-- The offset computation as the specification words it (spec section 4.3,
claim C2): minimum top and maximum bottom are the true extrema of the given
rectangles, the degenerate and oversized cases are as described, and the
midpoint is clamped to a minimum of 0.  Stated separately from the source
embedding so the two can be compared. -/
def specOffset (rects : List Rect) (height paddingTop : ℚ) : ℚ :=
  match rects with
  | [] => 0
  | r :: rest =>
    let minTop := rest.foldl (fun m x => min m x.top) r.top
    let maxBottom := rest.foldl (fun m x => max m x.bottom) r.bottom
    if minTop ≥ maxBottom then 0
    else
      let usable := height - paddingTop
      if maxBottom - minTop > usable then minTop
      else max ((maxBottom + minTop - usable) / 2) 0

theorem ite_pos_eq_max (q : ℚ) : (if q > 0 then q else 0) = max q 0 := by
  rcases le_or_lt q 0 with h | h
  · rw [if_neg (not_lt.mpr h), max_eq_right h]
  · rw [if_pos h, max_eq_left h.le]

/-- Counterexample for claim C2: a single matched node lying entirely above
the document origin (top -150, bottom -100) in a viewport of usable height
100.  The true span is 50 and fits, so the claim prescribes the clamped
midpoint 0; the source clamps the maximum bottom at its 0 accumulator, sees
a span of 150 that does not fit, and returns the minimum top -150. -/
theorem calcTopToCenter_negative_rect_counterexample :
    calcTopToCenter (some [Rect.mk (-150) (-100)]) 100 0 = -150 ∧
    specOffset [Rect.mk (-150) (-100)] 100 0 = 0 ∧
    calcTopToCenter (some [Rect.mk (-150) (-100)]) 100 0 ≠
      specOffset [Rect.mk (-150) (-100)] 100 0 := by
  have h1 : calcTopToCenter (some [Rect.mk (-150) (-100)]) 100 0 = -150 := by
    simp only [calcTopToCenter, List.foldl]
    rw [min_eq_right (by norm_num [jsMaxValue]), max_eq_left (by norm_num)]
    rw [if_neg (by norm_num), if_pos (by norm_num)]
  have h2 : specOffset [Rect.mk (-150) (-100)] 100 0 = 0 := by
    simp only [specOffset, List.foldl]
    rw [if_neg (by norm_num), if_neg (by norm_num)]
    rw [max_eq_right (by norm_num)]
  exact ⟨h1, h2, by rw [h1, h2]; norm_num⟩

/-- Claim C2 (amended): provided every matched rectangle has a non-negative
bottom and a top no larger than Number.MAX_VALUE, the computation returns 0
when the minimum top is at least the maximum bottom (including the
zero-node and null cases); returns the minimum top when the span exceeds
the usable height (viewport height minus top padding); and otherwise
returns the midpoint (maxBottom + minTop - usable) / 2 clamped to a
minimum of 0.  In particular one node with top 2000 and bottom 2020 in a
viewport of height 800 with padding 0 gives 1610. -/
theorem calcTopToCenter_spec :
    (∀ height paddingTop : ℚ, calcTopToCenter none height paddingTop = 0) ∧
    (∀ height paddingTop : ℚ, calcTopToCenter (some []) height paddingTop = 0) ∧
    (∀ (rs : List Rect) (height paddingTop : ℚ),
      (∀ x ∈ rs, 0 ≤ x.bottom ∧ x.top ≤ jsMaxValue) →
      calcTopToCenter (some rs) height paddingTop = specOffset rs height paddingTop) ∧
    calcTopToCenter (some [Rect.mk 2000 2020]) 800 0 = 1610 := by
  refine ⟨fun _ _ => rfl, ?_, ?_, ?_⟩
  · intro height paddingTop
    simp only [calcTopToCenter, List.foldl]
    rw [if_pos (by norm_num [jsMaxValue])]
  · intro rs height paddingTop h
    cases rs with
    | nil =>
      simp only [calcTopToCenter, specOffset, List.foldl]
      rw [if_pos (by norm_num [jsMaxValue])]
    | cons r rest =>
      have hr := h r (List.mem_cons_self r rest)
      simp only [calcTopToCenter, specOffset, List.foldl]
      rw [min_eq_right hr.2, max_eq_right hr.1, ite_pos_eq_max]
  · simp only [calcTopToCenter, List.foldl]
    rw [min_eq_right (by norm_num [jsMaxValue]), max_eq_right (by norm_num)]
    rw [if_neg (by norm_num), if_neg (by norm_num), if_pos (by norm_num)]
    norm_num

/-- Witness for the amended claim C2 at a concrete rectangle list. -/
theorem calcTopToCenter_spec_witness :
    (∀ x ∈ [Rect.mk 10 20, Rect.mk 5 30], 0 ≤ x.bottom ∧ x.top ≤ jsMaxValue) ∧
    calcTopToCenter (some [Rect.mk 10 20, Rect.mk 5 30]) 100 0 =
      specOffset [Rect.mk 10 20, Rect.mk 5 30] 100 0 := by
  have hx : ∀ x ∈ [Rect.mk 10 20, Rect.mk 5 30], 0 ≤ x.bottom ∧ x.top ≤ jsMaxValue := by
    intro x hmem
    rcases List.mem_cons.mp hmem with hx | hmem2
    · rw [hx]; constructor <;> norm_num [jsMaxValue]
    · rw [List.mem_singleton.mp hmem2]; constructor <;> norm_num [jsMaxValue]
  exact ⟨hx, calcTopToCenter_spec.2.2.1 [Rect.mk 10 20, Rect.mk 5 30] 100 0 hx⟩

/-- A document node identifier; highlighted nodes and the transient
sentinel element are referred to by id. -/
abbrev NodeId := Nat

/-- The two style properties the handler touches on a node: background
color and foreground color.  none models a property with no inline
override, the state that resetStyles restores. -/
structure NodeStyle where
  backgroundColor : Option String
  color : Option String
deriving DecidableEq

/-- The mutable state of one handler instance together with the document
state it mutates: the stored node list (null until found), the per-node
style overrides, the viewport scroll offset, and the children of the
document body. -/
structure World where
  highlightedNodes : Option (List NodeId)
  styles : NodeId → NodeStyle
  scrollTop : ℚ
  bodyChildren : List NodeId

/-- The external collaborators of the handler as read-only capabilities:
the text locator pair findSentences and markTextRangeList (findtext.js,
outside this repository slice), the per-node layout rectangles, the
viewport height and top padding, the current document visibility state,
and the identifier handed out for a freshly created element. -/
structure Env where
  findSentences : List String → Option (List Nat)
  markTextRangeList : List Nat → Option (List NodeId)
  getLayoutRect : NodeId → Rect
  viewportHeight : ℚ
  paddingTop : ℚ
  visibilityState : String
  freshNode : NodeId

/-- One observable side effect of the handler, in program order. -/
inductive Event where
  | highlightState (state : String) (scroll : Option ℚ)
  | setStyle (n : NodeId)
  | resetStyle (n : NodeId)
  | setScrollTop (v : ℚ)
  | createSentinel (n : NodeId) (styleProps : List (String × String))
  | appendChild (n : NodeId)
  | animateScrollIntoView (n : NodeId)
  | removeChild (n : NodeId)
  | registerVisibilityHandler
  | listenClickOnce
deriving DecidableEq

/-- SCROLL_ANIMATION_HEIGHT_LIMIT from the source: the upper bound on the
height of the scrolling-down animation. -/
def SCROLL_ANIMATION_HEIGHT_LIMIT : ℚ := 1000

/-- calcTopToCenterHighlightedNodes_ as invoked by the handler: reads the
layout rectangle of every stored node from the viewport service and runs
the offset computation. -/
def calcTopToCenterHighlightedNodes (env : Env) (nodes : Option (List NodeId)) : ℚ :=
  calcTopToCenter (nodes.map (List.map env.getLayoutRect))
    env.viewportHeight env.paddingTop

/-- findHighlightedNodes_ from the source: invokes the external locator; on
any failure (no sentences found, a null mark result, or an empty node
list) the stored node set is left untouched; otherwise it is populated. -/
def findHighlightedNodes (env : Env) (w : World) (info : HighlightInfo) : World :=
  match env.findSentences info.sentences with
  | none => w
  | some sens =>
    match env.markTextRangeList sens with
    | none => w
    | some nodes =>
      if nodes.length = 0 then w
      else { w with highlightedNodes := some nodes }

/-- The inline style list given to the sentinel element in
animateScrollToTop_: absolutely positioned at the floor of the target
offset, stretched to the bottom edge at full width, and transparent to
pointer events. -/
def sentinelStyleProps (top : ℚ) : List (String × String) :=
  [("position", "absolute"),
   ("top", toString (Rat.floor top) ++ "px"),
   ("bottom", "0"),
   ("left", "0"),
   ("right", "0"),
   ("pointer-events", "none")]

/-- animateScrollToTop_ from the source: creates the sentinel, appends it
to the body, sends auto_scroll, requests the animated scroll into view,
and on completion of the animation sends shown and removes the sentinel.
The asynchronous completion continuation is placed at its resolution point
in the trace. -/
def animateScrollToTop (env : Env) (w : World) (top : ℚ) : World × List Event :=
  let s := env.freshNode
  ({ w with bodyChildren := (w.bodyChildren ++ [s]).erase s },
   [Event.createSentinel s (sentinelStyleProps top),
    Event.appendChild s,
    Event.highlightState "auto_scroll" none,
    Event.animateScrollIntoView s,
    Event.highlightState "shown" none,
    Event.removeChild s])

/-- The style each highlighted node receives: yellow background, dark
foreground. -/
def highlightStyle : NodeStyle := NodeStyle.mk (some "#ff0") (some "#333")

/-- Overwrite one node style in a style map. -/
def writeStyle (styles : NodeId → NodeStyle) (n : NodeId) (v : NodeStyle) :
    NodeId → NodeStyle :=
  fun m => if m = n then v else styles m

/-- The styling loop of initHighlight_: sets the highlight style on every
stored node in order. -/
def setNodeStyles (styles : NodeId → NodeStyle) (ns : List NodeId) :
    NodeId → NodeStyle :=
  ns.foldl (fun st n => writeStyle st n highlightStyle) styles

/-- The reset loop of dismissHighlight_: clears both overridden properties
on every stored node. -/
def resetNodeStyles (styles : NodeId → NodeStyle) (ns : List NodeId) :
    NodeId → NodeStyle :=
  ns.foldl (fun st n => writeStyle st n (NodeStyle.mk none none)) styles

/-- initHighlight_ from the source: locate, then either report not_found
and stop, or report found with the computed offset, style every node,
branch on visibility (animating now, or pre-positioning the viewport when
the offset is large and registering the visibility callback), and finally
register the one-shot click-to-dismiss listener. -/
def initHighlight (env : Env) (w0 : World) (info : HighlightInfo) :
    World × List Event :=
  let w := findHighlightedNodes env w0 info
  match w.highlightedNodes with
  | none => (w, [Event.highlightState "not_found" none])
  | some nodes =>
    let scrollTop := calcTopToCenterHighlightedNodes env (some nodes)
    let w1 := { w with styles := setNodeStyles w.styles nodes }
    let headEvents :=
      Event.highlightState "found" (some scrollTop) :: nodes.map Event.setStyle
    if env.visibilityState = "visible" then
      let ar := animateScrollToTop env w1 scrollTop
      (ar.1, headEvents ++ ar.2 ++ [Event.listenClickOnce])
    else
      let pr :=
        if scrollTop > SCROLL_ANIMATION_HEIGHT_LIMIT then
          ({ w1 with scrollTop := scrollTop - SCROLL_ANIMATION_HEIGHT_LIMIT },
           [Event.setScrollTop (scrollTop - SCROLL_ANIMATION_HEIGHT_LIMIT)])
        else (w1, [])
      (pr.1,
       headEvents ++ pr.2 ++ [Event.registerVisibilityHandler, Event.listenClickOnce])

/-- dismissHighlight_ from the source: nothing happens when no nodes are
stored; otherwise both style overrides are reset on every stored node and
the stored reference is kept. -/
def dismissHighlight (w : World) : World × List Event :=
  match w.highlightedNodes with
  | none => (w, [])
  | some nodes =>
    ({ w with styles := resetNodeStyles w.styles nodes }, nodes.map Event.resetStyle)

/-- The visibility-changed callback registered by initHighlight_ when the
document starts hidden, as a step function: the closure-local called flag
and the world form the state; each firing observes the environment current
at that moment, so the offset is recomputed from fresh layout data. -/
def visibilityHandlerStep (env : Env) (st : Bool × World) :
    (Bool × World) × List Event :=
  if st.1 ∨ env.visibilityState ≠ "visible" then (st, [])
  else
    let ar := animateScrollToTop env st.2
      (calcTopToCenterHighlightedNodes env st.2.highlightedNodes)
    ((true, ar.1), ar.2)

/-- Repeated firings of the visibility-changed callback across a sequence
of visibility-change events, accumulating the emitted trace. -/
def runVisibilityEvents : List Env → Bool × World → (Bool × World) × List Event
  | [], st => (st, [])
  | env :: rest, st =>
    let r1 := visibilityHandlerStep env st
    let r2 := runVisibilityEvents rest r1.1
    (r2.1, r1.2 ++ r2.2)

/-- Whether an event is the auto_scroll notification, the start of one run
of the scroll-animation sequence. -/
def Event.isAutoScroll : Event → Bool
  | Event.highlightState s _ => s == "auto_scroll"
  | _ => false

/-- Whether an event is the found notification. -/
def Event.isFound : Event → Bool
  | Event.highlightState s _ => s == "found"
  | _ => false

/-- Whether an event is a style application on some node. -/
def Event.isSetStyle : Event → Bool
  | Event.setStyle _ => true
  | _ => false

/-- Whether an event is an unanimated scroll-offset write. -/
def Event.isSetScrollTop : Event → Bool
  | Event.setScrollTop _ => true
  | _ => false

theorem isFound_setStyle (n : NodeId) : Event.isFound (Event.setStyle n) = false := rfl

theorem isFound_map_setStyle (ns : List NodeId) :
    (ns.map Event.setStyle).filter Event.isFound = [] := by
  induction ns with
  | nil => rfl
  | cons n tl ih => simp [List.filter_cons, isFound_setStyle, ih]

theorem isSetStyle_map_setStyle (ns : List NodeId) :
    (ns.map Event.setStyle).filter Event.isSetStyle = ns.map Event.setStyle := by
  induction ns with
  | nil => rfl
  | cons n tl ih => simp [List.filter_cons, Event.isSetStyle, ih]

theorem foldl_writeStyle_apply (v : NodeStyle) (ns : List NodeId) :
    ∀ (styles : NodeId → NodeStyle) (m : NodeId),
      ns.foldl (fun st n => writeStyle st n v) styles m =
        if m ∈ ns then v else styles m := by
  induction ns with
  | nil => intro styles m; simp
  | cons n tl ih =>
    intro styles m
    simp only [List.foldl]
    rw [ih]
    by_cases hm : m ∈ tl
    · simp [hm]
    · by_cases he : m = n
      · simp [writeStyle, hm, he]
      · simp [writeStyle, hm, he]

/-- Claim C4: when the locator fails (no sentences found, a null mark
result, or an empty node list), initialization emits exactly one not_found
notification and stops: the world is returned unchanged, so no styling, no
scroll change, and the stored node set stays absent. -/
theorem initHighlight_not_found (env : Env) (w : World) (info : HighlightInfo)
    (h0 : w.highlightedNodes = none)
    (h : env.findSentences info.sentences = none ∨
      ∃ sens, env.findSentences info.sentences = some sens ∧
        (env.markTextRangeList sens = none ∨ env.markTextRangeList sens = some [])) :
    initHighlight env w info = (w, [Event.highlightState "not_found" none]) := by
  have hfind : findHighlightedNodes env w info = w := by
    rcases h with hf | ⟨sens, hs, hm⟩
    · simp [findHighlightedNodes, hf]
    · rcases hm with hm | hm
      · simp [findHighlightedNodes, hs, hm]
      · simp [findHighlightedNodes, hs, hm]
  simp [initHighlight, hfind, h0]

/-- A concrete initial world used by witnesses: no stored nodes, no style
overrides, scroll offset 0, body children 0 and 1. -/
def sampleWorld : World :=
  World.mk none (fun _ => NodeStyle.mk none none) 0 [0, 1]

/-- A concrete visible environment whose locator matches node 7 at layout
rectangle top 2000, bottom 2020, in a viewport of height 800 with top
padding 0. -/
def sampleEnvFound : Env :=
  Env.mk (fun _ => some [0]) (fun _ => some [7]) (fun _ => Rect.mk 2000 2020)
    800 0 "visible" 99

/-- The same concrete environment with the document hidden. -/
def sampleEnvHidden : Env :=
  Env.mk (fun _ => some [0]) (fun _ => some [7]) (fun _ => Rect.mk 2000 2020)
    800 0 "hidden" 99

/-- A concrete environment whose locator finds nothing. -/
def sampleEnvNotFound : Env :=
  Env.mk (fun _ => none) (fun _ => none) (fun _ => Rect.mk 0 0) 800 0 "visible" 99

/-- Witness for claim C4 at a concrete locator failure. -/
theorem initHighlight_not_found_witness :
    initHighlight sampleEnvNotFound sampleWorld (HighlightInfo.mk ["Hello"]) =
      (sampleWorld, [Event.highlightState "not_found" none]) :=
  initHighlight_not_found sampleEnvNotFound sampleWorld (HighlightInfo.mk ["Hello"])
    rfl (Or.inl rfl)

/-- Claim C3: when the locator matches a non-empty node list,
initialization emits exactly one found notification whose scroll parameter
is the offset computed by the centering algorithm, and then applies the
highlight styling to every matched node exactly once: the trace starts
with the found message followed by one setStyle per matched node in
request order, the rest of the trace holds no further found or setStyle
events, and the resulting style map holds the highlight style on every
matched node. -/
theorem initHighlight_found (env : Env) (w : World) (info : HighlightInfo)
    (sens : List Nat) (nodes : List NodeId)
    (h1 : env.findSentences info.sentences = some sens)
    (h2 : env.markTextRangeList sens = some nodes)
    (h3 : nodes ≠ []) :
    ((initHighlight env w info).2.filter Event.isFound =
      [Event.highlightState "found"
        (some (calcTopToCenterHighlightedNodes env (some nodes)))]) ∧
    ((initHighlight env w info).2.filter Event.isSetStyle =
      nodes.map Event.setStyle) ∧
    (∃ t, (initHighlight env w info).2 =
      Event.highlightState "found"
        (some (calcTopToCenterHighlightedNodes env (some nodes))) ::
        (nodes.map Event.setStyle ++ t)) ∧
    (∀ n ∈ nodes, (initHighlight env w info).1.styles n = highlightStyle) := by
  have hw : findHighlightedNodes env w info =
      { w with highlightedNodes := some nodes } := by
    simp [findHighlightedNodes, h1, h2, List.length_eq_zero, h3]
  by_cases hvis : env.visibilityState = "visible"
  · have ht : (initHighlight env w info).2 =
        Event.highlightState "found"
          (some (calcTopToCenterHighlightedNodes env (some nodes))) ::
        (nodes.map Event.setStyle ++
          [Event.createSentinel env.freshNode
            (sentinelStyleProps (calcTopToCenterHighlightedNodes env (some nodes))),
           Event.appendChild env.freshNode,
           Event.highlightState "auto_scroll" none,
           Event.animateScrollIntoView env.freshNode,
           Event.highlightState "shown" none,
           Event.removeChild env.freshNode,
           Event.listenClickOnce]) := by
      simp [initHighlight, hw, hvis, animateScrollToTop]
    have hst : (initHighlight env w info).1.styles = setNodeStyles w.styles nodes := by
      simp [initHighlight, hw, hvis, animateScrollToTop]
    refine ⟨?_, ?_, ⟨_, ht⟩, ?_⟩
    · rw [ht]
      simp [List.filter_cons, List.filter_append, isFound_map_setStyle, Event.isFound]
    · rw [ht]
      simp [List.filter_cons, List.filter_append, isSetStyle_map_setStyle,
        Event.isSetStyle, Event.isFound]
    · intro n hn
      rw [hst, setNodeStyles, foldl_writeStyle_apply, if_pos hn]
  · by_cases hpre : calcTopToCenterHighlightedNodes env (some nodes) >
        SCROLL_ANIMATION_HEIGHT_LIMIT
    · have ht : (initHighlight env w info).2 =
          Event.highlightState "found"
            (some (calcTopToCenterHighlightedNodes env (some nodes))) ::
          (nodes.map Event.setStyle ++
            [Event.setScrollTop (calcTopToCenterHighlightedNodes env (some nodes) -
               SCROLL_ANIMATION_HEIGHT_LIMIT),
             Event.registerVisibilityHandler,
             Event.listenClickOnce]) := by
        simp [initHighlight, hw, hvis, hpre]
      have hst : (initHighlight env w info).1.styles = setNodeStyles w.styles nodes := by
        simp [initHighlight, hw, hvis, hpre]
      refine ⟨?_, ?_, ⟨_, ht⟩, ?_⟩
      · rw [ht]
        simp [List.filter_cons, List.filter_append, isFound_map_setStyle, Event.isFound]
      · rw [ht]
        simp [List.filter_cons, List.filter_append, isSetStyle_map_setStyle,
          Event.isSetStyle, Event.isFound]
      · intro n hn
        rw [hst, setNodeStyles, foldl_writeStyle_apply, if_pos hn]
    · have ht : (initHighlight env w info).2 =
          Event.highlightState "found"
            (some (calcTopToCenterHighlightedNodes env (some nodes))) ::
          (nodes.map Event.setStyle ++
            [Event.registerVisibilityHandler, Event.listenClickOnce]) := by
        simp [initHighlight, hw, hvis, hpre]
      have hst : (initHighlight env w info).1.styles = setNodeStyles w.styles nodes := by
        simp [initHighlight, hw, hvis, hpre]
      refine ⟨?_, ?_, ⟨_, ht⟩, ?_⟩
      · rw [ht]
        simp [List.filter_cons, List.filter_append, isFound_map_setStyle, Event.isFound]
      · rw [ht]
        simp [List.filter_cons, List.filter_append, isSetStyle_map_setStyle,
          Event.isSetStyle, Event.isFound]
      · intro n hn
        rw [hst, setNodeStyles, foldl_writeStyle_apply, if_pos hn]

/-- Witness for claim C3 at a concrete match of one node. -/
theorem initHighlight_found_witness :
    ((initHighlight sampleEnvFound sampleWorld (HighlightInfo.mk ["Hello world"])).2.filter
        Event.isFound =
      [Event.highlightState "found"
        (some (calcTopToCenterHighlightedNodes sampleEnvFound (some [7])))]) ∧
    ((initHighlight sampleEnvFound sampleWorld (HighlightInfo.mk ["Hello world"])).2.filter
        Event.isSetStyle = [Event.setStyle 7]) ∧
    (∀ n ∈ [7],
      (initHighlight sampleEnvFound sampleWorld
        (HighlightInfo.mk ["Hello world"])).1.styles n = highlightStyle) := by
  have r := initHighlight_found sampleEnvFound sampleWorld
    (HighlightInfo.mk ["Hello world"]) [0] [7] rfl rfl (by simp)
  exact ⟨r.1, r.2.1, r.2.2.2⟩

theorem resetNodeStyles_apply (styles : NodeId → NodeStyle) (ns : List NodeId)
    (m : NodeId) :
    resetNodeStyles styles ns m =
      if m ∈ ns then NodeStyle.mk none none else styles m :=
  foldl_writeStyle_apply (NodeStyle.mk none none) ns styles m

/-- Claim C6: dismissal is idempotent.  With no stored nodes it changes
nothing and performs no resets; with stored nodes it clears both style
overrides on every stored node while keeping the stored node reference;
and a second invocation reproduces the end state of the first. -/
theorem dismissHighlight_idempotent :
    (∀ w : World, w.highlightedNodes = none → dismissHighlight w = (w, [])) ∧
    (∀ (w : World) (nodes : List NodeId), w.highlightedNodes = some nodes →
      (dismissHighlight w).1.highlightedNodes = some nodes ∧
      ∀ n ∈ nodes, (dismissHighlight w).1.styles n = NodeStyle.mk none none) ∧
    (∀ w : World, (dismissHighlight (dismissHighlight w).1).1 = (dismissHighlight w).1) := by
  refine ⟨?_, ?_, ?_⟩
  · intro w h
    simp [dismissHighlight, h]
  · intro w nodes h
    constructor
    · simp [dismissHighlight, h]
    · intro n hn
      simp only [dismissHighlight, h]
      rw [resetNodeStyles_apply, if_pos hn]
  · intro w
    cases h : w.highlightedNodes with
    | none => simp [dismissHighlight, h]
    | some nodes =>
      have hreset : resetNodeStyles (resetNodeStyles w.styles nodes) nodes =
          resetNodeStyles w.styles nodes := by
        funext m
        rw [resetNodeStyles_apply, resetNodeStyles_apply]
        by_cases hm : m ∈ nodes
        · simp [hm]
        · simp [hm]
      simp [dismissHighlight, h, hreset]

/-- A concrete world holding highlighted nodes 0 and 1 with the highlight
style applied, used by witnesses. -/
def dismissSampleWorld : World :=
  World.mk (some [0, 1]) (fun _ => highlightStyle) 5 [0, 1]

/-- Witness for claim C6: dismissal on a world with no stored nodes is a
no-op, and after dismissal on a world with stored nodes both overrides are
cleared on each of them. -/
theorem dismissHighlight_idempotent_witness :
    dismissHighlight sampleWorld = (sampleWorld, []) ∧
    ∀ n ∈ [0, 1], (dismissHighlight dismissSampleWorld).1.styles n =
      NodeStyle.mk none none :=
  ⟨dismissHighlight_idempotent.1 sampleWorld rfl,
   (dismissHighlight_idempotent.2.1 dismissSampleWorld [0, 1] rfl).2⟩

/-- Claim C7: one run of the scroll-animation sequence creates the
non-interactive sentinel positioned at the floored target offset and
spanning to the bottom edge at full width, appends it to the body, emits
auto_scroll, requests the animated scroll into view of the sentinel, and
on completion of the animation emits shown and removes the sentinel;
hence auto_scroll precedes shown in the trace, and afterwards the body is
as before and no longer contains the sentinel. -/
theorem animateScrollToTop_sequence (env : Env) (w : World) (top : ℚ)
    (hfresh : env.freshNode ∉ w.bodyChildren) :
    (animateScrollToTop env w top).2 =
      [Event.createSentinel env.freshNode (sentinelStyleProps top),
       Event.appendChild env.freshNode,
       Event.highlightState "auto_scroll" none,
       Event.animateScrollIntoView env.freshNode,
       Event.highlightState "shown" none,
       Event.removeChild env.freshNode] ∧
    (animateScrollToTop env w top).1.bodyChildren = w.bodyChildren ∧
    env.freshNode ∉ (animateScrollToTop env w top).1.bodyChildren := by
  have he : (w.bodyChildren ++ [env.freshNode]).erase env.freshNode =
      w.bodyChildren := by
    rw [List.erase_append_right _ hfresh]
    simp
  refine ⟨rfl, ?_, ?_⟩
  · simp [animateScrollToTop, he]
  · simp [animateScrollToTop, he, hfresh]

/-- Witness for claim C7 at a concrete animation run. -/
theorem animateScrollToTop_sequence_witness :
    (99 : NodeId) ∉ sampleWorld.bodyChildren ∧
    (animateScrollToTop sampleEnvFound sampleWorld 1610).1.bodyChildren =
      sampleWorld.bodyChildren :=
  ⟨by decide,
   (animateScrollToTop_sequence sampleEnvFound sampleWorld 1610 (by decide)).2.1⟩

theorem isSetScrollTop_map_setStyle (ns : List NodeId) :
    (ns.map Event.setStyle).filter Event.isSetScrollTop = [] := by
  induction ns with
  | nil => rfl
  | cons n tl ih => simp [List.filter_cons, Event.isSetScrollTop, ih]

theorem isAutoScroll_map_setStyle (ns : List NodeId) :
    (ns.map Event.setStyle).filter Event.isAutoScroll = [] := by
  induction ns with
  | nil => rfl
  | cons n tl ih => simp [List.filter_cons, Event.isAutoScroll, ih]

/-- Claim C8: when initialization finds nodes while the document is not
visible, the viewport scroll offset is written, without animation, as the
computed offset minus 1000 exactly when the computed offset exceeds 1000
layout units; for offsets at most 1000 no scroll write occurs; in neither
case does the animation sequence start during initialization. -/
theorem initHighlight_hidden_prescroll (env : Env) (w : World) (info : HighlightInfo)
    (sens : List Nat) (nodes : List NodeId)
    (h1 : env.findSentences info.sentences = some sens)
    (h2 : env.markTextRangeList sens = some nodes)
    (h3 : nodes ≠ [])
    (hvis : env.visibilityState ≠ "visible") :
    (calcTopToCenterHighlightedNodes env (some nodes) > 1000 →
      (initHighlight env w info).1.scrollTop =
        calcTopToCenterHighlightedNodes env (some nodes) - 1000 ∧
      Event.setScrollTop (calcTopToCenterHighlightedNodes env (some nodes) - 1000) ∈
        (initHighlight env w info).2) ∧
    (calcTopToCenterHighlightedNodes env (some nodes) ≤ 1000 →
      (initHighlight env w info).1.scrollTop = w.scrollTop ∧
      (initHighlight env w info).2.filter Event.isSetScrollTop = []) ∧
    (initHighlight env w info).2.filter Event.isAutoScroll = [] := by
  have hw : findHighlightedNodes env w info =
      { w with highlightedNodes := some nodes } := by
    simp [findHighlightedNodes, h1, h2, List.length_eq_zero, h3]
  by_cases hpre : calcTopToCenterHighlightedNodes env (some nodes) >
      SCROLL_ANIMATION_HEIGHT_LIMIT
  · have hkey : initHighlight env w info =
        ({ w with
            highlightedNodes := some nodes,
            styles := setNodeStyles w.styles nodes,
            scrollTop := calcTopToCenterHighlightedNodes env (some nodes) -
              SCROLL_ANIMATION_HEIGHT_LIMIT },
         Event.highlightState "found"
            (some (calcTopToCenterHighlightedNodes env (some nodes))) ::
          (nodes.map Event.setStyle ++
            [Event.setScrollTop (calcTopToCenterHighlightedNodes env (some nodes) -
               SCROLL_ANIMATION_HEIGHT_LIMIT),
             Event.registerVisibilityHandler,
             Event.listenClickOnce])) := by
      simp [initHighlight, hw, hvis, hpre]
    refine ⟨?_, ?_, ?_⟩
    · intro hgt
      rw [hkey]
      refine ⟨rfl, ?_⟩
      simp [SCROLL_ANIMATION_HEIGHT_LIMIT]
    · intro hle
      exact absurd (by simpa [SCROLL_ANIMATION_HEIGHT_LIMIT] using hpre)
        (not_lt.mpr hle)
    · rw [hkey]
      simp [List.filter_cons, List.filter_append, isAutoScroll_map_setStyle,
        Event.isAutoScroll]
  · have hkey : initHighlight env w info =
        ({ w with
            highlightedNodes := some nodes,
            styles := setNodeStyles w.styles nodes },
         Event.highlightState "found"
            (some (calcTopToCenterHighlightedNodes env (some nodes))) ::
          (nodes.map Event.setStyle ++
            [Event.registerVisibilityHandler, Event.listenClickOnce])) := by
      simp [initHighlight, hw, hvis, hpre]
    refine ⟨?_, ?_, ?_⟩
    · intro hgt
      exact absurd (by simpa [SCROLL_ANIMATION_HEIGHT_LIMIT] using hgt) hpre
    · intro hle
      rw [hkey]
      refine ⟨rfl, ?_⟩
      simp [List.filter_cons, List.filter_append, isSetScrollTop_map_setStyle,
        Event.isSetScrollTop]
    · rw [hkey]
      simp [List.filter_cons, List.filter_append, isAutoScroll_map_setStyle,
        Event.isAutoScroll]

theorem sampleOffset_eval : calcTopToCenter (some [Rect.mk 2000 2020]) 800 0 = 1610 := by
  simp only [calcTopToCenter, List.foldl]
  rw [min_eq_right (by norm_num [jsMaxValue]), max_eq_right (by norm_num)]
  rw [if_neg (by norm_num), if_neg (by norm_num), if_pos (by norm_num)]
  norm_num

theorem sampleOffsetHidden_eval :
    calcTopToCenterHighlightedNodes sampleEnvHidden (some [7]) = 1610 := by
  have : calcTopToCenterHighlightedNodes sampleEnvHidden (some [7]) =
      calcTopToCenter (some [Rect.mk 2000 2020]) 800 0 := rfl
  rw [this, sampleOffset_eval]

/-- Witness for claim C8: with the document hidden and a computed offset of
1610, the scroll offset is pre-positioned to 610. -/
theorem initHighlight_hidden_prescroll_witness :
    calcTopToCenterHighlightedNodes sampleEnvHidden (some [7]) > 1000 ∧
    (initHighlight sampleEnvHidden sampleWorld
        (HighlightInfo.mk ["Hello world"])).1.scrollTop =
      calcTopToCenterHighlightedNodes sampleEnvHidden (some [7]) - 1000 := by
  have hgt : calcTopToCenterHighlightedNodes sampleEnvHidden (some [7]) > 1000 := by
    rw [sampleOffsetHidden_eval]
    norm_num
  exact ⟨hgt,
    ((initHighlight_hidden_prescroll sampleEnvHidden sampleWorld
      (HighlightInfo.mk ["Hello world"]) [0] [7] rfl rfl (by simp)
      (by decide)).1 hgt).1⟩

theorem runVisibilityEvents_called (evs : List Env) :
    ∀ w : World, runVisibilityEvents evs (true, w) = ((true, w), []) := by
  induction evs with
  | nil => intro w; rfl
  | cons env rest ih =>
    intro w
    simp [runVisibilityEvents, visibilityHandlerStep, ih]

theorem animate_trace_auto_count (env : Env) (w : World) (top : ℚ) :
    ((animateScrollToTop env w top).2.filter Event.isAutoScroll).length = 1 := by
  simp [animateScrollToTop, List.filter_cons, Event.isAutoScroll]

/-- Claim C9: the visibility callback triggers the animation at most once
across any sequence of visibility-change events.  It does nothing once the
called flag is set; it does nothing when the observed visibility state is
not visible; on a visible event with the flag clear it runs the animation
sequence at the offset recomputed from that event's fresh layout data and
sets the flag; and from a clear flag any event sequence emits at most one
auto_scroll. -/
theorem visibilityHandler_at_most_once :
    (∀ (env : Env) (w : World),
      visibilityHandlerStep env (true, w) = ((true, w), [])) ∧
    (∀ (env : Env) (st : Bool × World), env.visibilityState ≠ "visible" →
      visibilityHandlerStep env st = (st, [])) ∧
    (∀ (env : Env) (w : World), env.visibilityState = "visible" →
      visibilityHandlerStep env (false, w) =
        ((true, (animateScrollToTop env w
            (calcTopToCenterHighlightedNodes env w.highlightedNodes)).1),
         (animateScrollToTop env w
            (calcTopToCenterHighlightedNodes env w.highlightedNodes)).2)) ∧
    (∀ (evs : List Env) (w : World),
      ((runVisibilityEvents evs (false, w)).2.filter Event.isAutoScroll).length ≤ 1) := by
  refine ⟨?_, ?_, ?_, ?_⟩
  · intro env w
    simp [visibilityHandlerStep]
  · intro env st h
    simp [visibilityHandlerStep, h]
  · intro env w h
    simp [visibilityHandlerStep, h]
  · intro evs
    induction evs with
    | nil => intro w; simp [runVisibilityEvents]
    | cons env rest ih =>
      intro w
      by_cases hv : env.visibilityState = "visible"
      · have hstep : visibilityHandlerStep env (false, w) =
            ((true, (animateScrollToTop env w
                (calcTopToCenterHighlightedNodes env w.highlightedNodes)).1),
             (animateScrollToTop env w
                (calcTopToCenterHighlightedNodes env w.highlightedNodes)).2) := by
          simp [visibilityHandlerStep, hv]
        simp [runVisibilityEvents, hstep, runVisibilityEvents_called,
          List.filter_append, animate_trace_auto_count]
      · have hstep : visibilityHandlerStep env (false, w) = ((false, w), []) := by
          simp [visibilityHandlerStep, hv]
        simpa [runVisibilityEvents, hstep] using ih w

/-- Witness for claim C9: a hidden firing does nothing, and a visible
firing sets the called flag. -/
theorem visibilityHandler_at_most_once_witness :
    visibilityHandlerStep sampleEnvHidden (false, sampleWorld) =
      ((false, sampleWorld), []) ∧
    (visibilityHandlerStep sampleEnvFound (false, sampleWorld)).1.1 = true := by
  refine ⟨visibilityHandler_at_most_once.2.1 sampleEnvHidden (false, sampleWorld)
    (by decide), ?_⟩
  rw [visibilityHandler_at_most_once.2.2.1 sampleEnvFound sampleWorld rfl]
